import Mathlib

/-!
Verification of the stock-exchange transactional server
(src/Homework/homework8).  The entity store, the transaction
processor, the request decoder, the admission controller and the
per-connection handler are embedded as executable Lean definitions,
translated from the C++ sources:
  zarembmj_homework8.cpp / zarembmj_homework9.cpp (the two files share
  createStock, balanceStatus, updateBalance and processTrans verbatim),
  raodm_homework8.cpp (checkCreate, getStatus, updateBalance,
  processTrans), Stock.h.
Balances have C++ type unsigned int; they are embedded as Nat with an
explicit reduction modulo 2 ^ 32 at the points where the C++ arithmetic
can wrap.
-/

/-- 2 ^ 32, the modulus of the C++ type unsigned int. -/
def U32 : Nat := 4294967296

/-- The entity store sm::stockMap : unordered_map from stock name to
its Stock record.  Each Stock carries its name (equal to the key) and
an unsigned balance; the map is embedded as an association list of
(name, balance) pairs with at most one entry per name. -/
abbrev Store := List (String × Nat)

/-- Lookup, embedding stockMap.find(stock): some balance when the name
is present, none when find returns end(). -/
def findStock : Store → String → Option Nat
  | [], _ => none
  | (k, v) :: rest, name => if k = name then some v else findStock rest name

/-- Insert-or-update, embedding the write stockMap[stock].balance = b
(operator[] inserts the entry when absent). -/
def setStock : Store → String → Nat → Store
  | [], name, b => [(name, b)]
  | (k, v) :: rest, name, b =>
      if k = name then (name, b) :: rest else (k, v) :: setStock rest name b

/-- createStock (zarembmj_homework8.cpp lines 55-66): if the stock is
absent, insert it with the given balance and return the created
message; otherwise return the already-exists message and leave the
store unchanged. -/
def createStock (s : Store) (stock : String) (balance : Nat) :
    String × Store :=
  match findStock s stock with
  | none =>
      ("Stock " ++ stock ++ " created with balance = " ++ toString balance,
       setStock s stock balance)
  | some _ => ("Stock " ++ stock ++ " already exists", s)

/-- balanceStatus (zarembmj_homework8.cpp lines 77-87): format the
balance of the given stock under its lock.  stockMap.at throws when
the name is absent, modelled as none; processTrans only calls this
after a successful find. -/
def balanceStatus (s : Store) (stock : String) : Option String :=
  (findStock s stock).map
    (fun b => "Balance for stock " ++ stock ++ " = " ++ toString b)

/-- updateBalance (zarembmj_homework8.cpp lines 102-125, identical in
raodm_homework8.cpp lines 130-158): under the lock of the named stock,
a sell adds the trades to the balance (unsigned arithmetic, modulo
2 ^ 32) and notifies a waiter; any other transaction (the processor
only passes buy here) waits on the condition variable until
balance >= trades holds and only then subtracts.  A wait that is
never satisfied produces no result, embedded as none; the C++ wait is
unbounded so the handler blocks rather than rejecting. -/
def updateBalance (s : Store) (trans name : String) (trades : Nat) :
    Option (String × Store) :=
  match findStock s name with
  | none => none
  | some b =>
      if trans = "sell" then
        some ("Stock " ++ name ++ "\x27s balance updated",
              setStock s name ((b + trades) % U32))
      else
        if b ≥ trades then
          some ("Stock " ++ name ++ "\x27s balance updated",
                setStock s name (b - trades))
        else none

/-- processTrans (zarembmj_homework8.cpp lines 140-168, byte-identical
in zarembmj_homework9.cpp lines 148-176): dispatch on the transaction
kind.  reset clears the whole map; create delegates to createStock;
every other kind first checks existence (absent gives "Stock not
found"), then buy and sell delegate to updateBalance, status to
balanceStatus, and any remaining kind keeps the initial output
"Invalid request". -/
def processTrans (s : Store) (trans stock : String) (trades : Nat) :
    Option (String × Store) :=
  if trans = "reset" then
    some ("Stocks reset", [])
  else if trans = "create" then
    some (createStock s stock trades)
  else
    match findStock s stock with
    | none => some ("Stock not found", s)
    | some _ =>
        if trans = "buy" ∨ trans = "sell" then
          updateBalance s trans stock trades
        else if trans = "status" then
          (balanceStatus s stock).map (fun m => (m, s))
        else
          some ("Invalid request", s)

/-- checkCreate (raodm_homework8.cpp lines 82-92), the create helper of
the raodm variant; its body coincides with createStock. -/
def checkCreate (s : Store) (stock : String) (balance : Nat) :
    String × Store :=
  match findStock s stock with
  | none =>
      ("Stock " ++ stock ++ " created with balance = " ++ toString balance,
       setStock s stock balance)
  | some _ => ("Stock " ++ stock ++ " already exists", s)

/-- processTrans of the raodm variant (raodm_homework8.cpp lines
173-196).  It has no reset branch at all: only create is dispatched
before the existence check, so the kind "reset" falls through to the
unrecognized-kind handling.  getStatus and updateBalance of this file
coincide with balanceStatus and updateBalance above. -/
def raodmProcessTrans (s : Store) (trans stock : String) (trade : Nat) :
    Option (String × Store) :=
  if trans = "create" then
    some (checkCreate s stock trade)
  else
    match findStock s stock with
    | none => some ("Stock not found", s)
    | some _ =>
        if trans = "buy" ∨ trans = "sell" then
          updateBalance s trans stock trade
        else if trans = "status" then
          (balanceStatus s stock).map (fun m => (m, s))
        else
          some ("Invalid request", s)

-- Sanity examples (concrete evaluations of the embedding).
example : processTrans [] "create" "X" 100 =
    some ("Stock X created with balance = 100", [("X", 100)]) := by decide
example : processTrans [("X", 100)] "sell" "X" 30 =
    some ("Stock X\x27s balance updated", [("X", 130)]) := by decide
example : processTrans [("X", 130)] "status" "X" 0 =
    some ("Balance for stock X = 130", [("X", 130)]) := by decide
example : processTrans [("X", 10)] "buy" "X" 15 = none := by decide
example : processTrans [] "foo" "X" 0 = some ("Stock not found", []) := by
  decide
example : raodmProcessTrans [("X", 100)] "reset" "X" 0 =
    some ("Invalid request", [("X", 100)]) := by decide

/-- Lookup after insert-or-update finds the written balance. -/
lemma findStock_setStock_self (s : Store) (name : String) (b : Nat) :
    findStock (setStock s name b) name = some b := by
  induction s with
  | nil => simp [setStock, findStock]
  | cons kv rest ih =>
      obtain ⟨k, v⟩ := kv
      by_cases hk : k = name
      · simp [setStock, findStock, hk]
      · simp [setStock, findStock, hk, ih]

/-- C1: a buy (debit) of quantity q on an existing entity blocks (yields
no result) while balance < q and is never rejected with an error text;
as soon as balance >= q holds it subtracts exactly q, and the resulting
balance, read as a mathematical integer, equals balance - q and is
non-negative, so no operation drives a balance below zero. -/
theorem buy_blocks_until_balance (s : Store) (name : String) (b q : Nat)
    (h : findStock s name = some b) :
    (b < q → processTrans s "buy" name q = none) ∧
    (q ≤ b →
      processTrans s "buy" name q =
        some ("Stock " ++ name ++ "\x27s balance updated",
              setStock s name (b - q)) ∧
      ((b - q : Nat) : Int) = (b : Int) - (q : Int) ∧
      0 ≤ (b : Int) - (q : Int)) := by
  constructor
  · intro hlt
    simp [processTrans, updateBalance, h, show ¬ (b ≥ q) by omega]
  · intro hq
    refine ⟨?_, by omega, by omega⟩
    simp [processTrans, updateBalance, h, show b ≥ q from hq]

/-- Witness for C1 at the concrete store [("X", 10)]: buying 15 blocks,
buying 10 succeeds and leaves balance 0. -/
theorem buy_blocks_until_balance_witness :
    (processTrans [("X", 10)] "buy" "X" 15 = none) ∧
    (processTrans [("X", 10)] "buy" "X" 10 =
      some ("Stock " ++ "X" ++ "\x27s balance updated",
            setStock [("X", 10)] "X" (10 - 10))) :=
  ⟨(buy_blocks_until_balance [("X", 10)] "X" 10 15 (by decide)).1 (by decide),
   ((buy_blocks_until_balance [("X", 10)] "X" 10 10 (by decide)).2
      (by decide)).1⟩

/-- C2: on a name absent from the store, each of buy, sell and status
returns "Stock not found" and leaves the store unchanged. -/
theorem absent_name_not_found (s : Store) (stock : String) (q : Nat)
    (h : findStock s stock = none) :
    processTrans s "buy" stock q = some ("Stock not found", s) ∧
    processTrans s "sell" stock q = some ("Stock not found", s) ∧
    processTrans s "status" stock q = some ("Stock not found", s) := by
  refine ⟨?_, ?_, ?_⟩ <;> simp [processTrans, h]

/-- Witness for C2: name "X" absent from the store [("Y", 5)]. -/
theorem absent_name_not_found_witness :
    processTrans [("Y", 5)] "buy" "X" 3 =
        some ("Stock not found", [("Y", 5)]) ∧
    processTrans [("Y", 5)] "sell" "X" 3 =
        some ("Stock not found", [("Y", 5)]) ∧
    processTrans [("Y", 5)] "status" "X" 3 =
        some ("Stock not found", [("Y", 5)]) :=
  absent_name_not_found [("Y", 5)] "X" 3 (by decide)

/-- C3: a first create on an absent name inserts the entity with the
requested balance and returns the created message; a second create on
the same name returns the already-exists message and returns the store
of the first create unchanged, so the original balance survives. -/
theorem create_idempotent (s : Store) (name : String) (b b' : Nat)
    (h : findStock s name = none) :
    processTrans s "create" name b =
      some ("Stock " ++ name ++ " created with balance = " ++ toString b,
            setStock s name b) ∧
    findStock (setStock s name b) name = some b ∧
    processTrans (setStock s name b) "create" name b' =
      some ("Stock " ++ name ++ " already exists", setStock s name b) := by
  refine ⟨?_, findStock_setStock_self s name b, ?_⟩
  · simp [processTrans, createStock, h]
  · simp [processTrans, createStock, findStock_setStock_self]

/-- Witness for C3: create("X", 100) then create("X", 50) leaves the
balance of X at 100. -/
theorem create_idempotent_witness :
    processTrans [] "create" "X" 100 =
      some ("Stock " ++ "X" ++ " created with balance = " ++ toString 100,
            setStock [] "X" 100) ∧
    findStock (setStock [] "X" 100) "X" = some 100 ∧
    processTrans (setStock [] "X" 100) "create" "X" 50 =
      some ("Stock " ++ "X" ++ " already exists", setStock [] "X" 100) :=
  create_idempotent [] "X" 100 50 (by decide)

/-- C4: a sell (credit) of q on an existing entity adds q to the
balance and never blocks (for every quantity it produces a result),
and a subsequent status on that entity reports the updated balance in
exactly the format "Balance for stock <name> = <balance>". -/
theorem sell_adds_and_status_reports (s : Store) (name : String)
    (b q : Nat) (h : findStock s name = some b) (hov : b + q < U32) :
    processTrans s "sell" name q =
      some ("Stock " ++ name ++ "\x27s balance updated",
            setStock s name (b + q)) ∧
    (∀ q' : Nat, (processTrans s "sell" name q').isSome = true) ∧
    processTrans (setStock s name (b + q)) "status" name 0 =
      some ("Balance for stock " ++ name ++ " = " ++ toString (b + q),
            setStock s name (b + q)) := by
  refine ⟨?_, ?_, ?_⟩
  · simp [processTrans, updateBalance, h, Nat.mod_eq_of_lt hov]
  · intro q'
    simp [processTrans, updateBalance, h]
  · simp [processTrans, balanceStatus, findStock_setStock_self]

/-- Witness for C4: create("X", 100) state, sell("X", 30), then
status("X") reports 130. -/
theorem sell_adds_and_status_reports_witness :
    processTrans [("X", 100)] "sell" "X" 30 =
      some ("Stock " ++ "X" ++ "\x27s balance updated",
            setStock [("X", 100)] "X" (100 + 30)) ∧
    (∀ q' : Nat, (processTrans [("X", 100)] "sell" "X" q').isSome = true) ∧
    processTrans (setStock [("X", 100)] "X" (100 + 30)) "status" "X" 0 =
      some ("Balance for stock " ++ "X" ++ " = " ++ toString (100 + 30),
            setStock [("X", 100)] "X" (100 + 30)) :=
  sell_adds_and_status_reports [("X", 100)] "X" 100 30 (by decide) (by decide)

/-- C5 counterexample: the raodm variant of processTrans has no reset
branch, so on the store holding X with balance 100 a reset request
returns "Invalid request", clears nothing, and a subsequent status on X
still reports the balance instead of "Stock not found"; the claim that
reset clears the store in every implementation variant is false. -/
theorem reset_raodm_counterexample :
    raodmProcessTrans [("X", 100)] "reset" "X" 0 =
      some ("Invalid request", [("X", 100)]) ∧
    raodmProcessTrans [("X", 100)] "status" "X" 0 =
      some ("Balance for stock X = 100", [("X", 100)]) := by
  constructor <;> decide

/-- C5 (amended): in the zarembmj processors, reset clears the whole
store regardless of the supplied name and quantity and returns the
fixed text "Stocks reset", and a subsequent status on any name returns
"Stock not found"; the raodm variant instead treats "reset" as an
unrecognized kind and leaves the store unchanged. -/
theorem reset_clears_store (s : Store) (name : String) (q : Nat) :
    processTrans s "reset" name q = some ("Stocks reset", []) ∧
    processTrans ([] : Store) "status" name 0 =
      some ("Stock not found", []) ∧
    raodmProcessTrans s "reset" name q =
      some ((if findStock s name = none then "Stock not found"
             else "Invalid request"), s) := by
  refine ⟨by simp [processTrans], by simp [processTrans, findStock], ?_⟩
  rcases hfind : findStock s name with _ | b
  · simp [raodmProcessTrans, hfind]
  · simp [raodmProcessTrans, hfind]

/-- C6 counterexample: the unknown kind "foo" on the absent name "X"
returns "Stock not found", not "Invalid request", because processTrans
performs the existence check before recognizing the kind. -/
theorem invalid_request_counterexample :
    processTrans [] "foo" "X" 0 = some ("Stock not found", []) ∧
    ("Stock not found" : String) ≠ "Invalid request" := by
  constructor <;> decide

/-- C6 (amended): for a kind outside the five recognized transactions,
processTrans leaves the store unchanged and returns "Invalid request"
when the named entity exists, but "Stock not found" when it does not. -/
theorem unknown_trans_dispatch (s : Store) (trans stock : String)
    (q : Nat) (h1 : trans ≠ "reset") (h2 : trans ≠ "create")
    (h3 : trans ≠ "buy") (h4 : trans ≠ "sell") (h5 : trans ≠ "status") :
    processTrans s trans stock q =
      some ((if findStock s stock = none then "Stock not found"
             else "Invalid request"), s) := by
  rcases hfind : findStock s stock with _ | b
  · simp [processTrans, h1, h2, hfind]
  · simp [processTrans, h1, h2, h3, h4, h5, hfind]

/-- Witness for C6 (amended): kind "foo" on the existing name "X"
returns "Invalid request" and leaves the store unchanged. -/
theorem unknown_trans_dispatch_witness :
    processTrans [("X", 1)] "foo" "X" 0 =
      some ((if findStock [("X", 1)] "X" = none then "Stock not found"
             else "Invalid request"), [("X", 1)]) :=
  unknown_trans_dispatch [("X", 1)] "foo" "X" 0 (by decide) (by decide)
    (by decide) (by decide) (by decide)

/-- One istream string extraction from a token list (clientThread reads
tokens with operator>>): on an exhausted stream the target keeps its
default value "" and the stream stays exhausted (the C++ fail state). -/
def readTok : List String → String × List String
  | [] => ("", [])
  | t :: ts => (t, ts)

/-- istream extraction into the unsigned int amount (initialized to 0
in clientThread): the longest digit prefix of the token is converted;
a token with no leading digit fails the extraction and stores 0;
a value exceeding the unsigned range is clamped to 2 ^ 32 - 1. -/
def parseAmount (tok : String) : Nat :=
  let ds := tok.toList.takeWhile Char.isDigit
  if ds.isEmpty then 0
  else min (ds.foldl (fun a c => a * 10 + (c.toNat - 48)) 0) (U32 - 1)

/-- The final extraction of clientThread: on an exhausted stream the
amount keeps its initial value 0, otherwise the next token is
converted by parseAmount. -/
def readAmount : List String → Nat
  | [] => 0
  | t :: _ => parseAmount t

/-- The extraction sequence of clientThread (zarembmj_homework8.cpp
lines 215-218): dummy, trans, dummy, stock, dummy, amount read in that
order from the token stream of the sanitized request. -/
def decodeTokens (toks : List String) : String × String × Nat :=
  let (_, r1) := readTok toks
  let (tr, r2) := readTok r1
  let (_, r3) := readTok r2
  let (st, r4) := readTok r3
  let (_, r5) := readTok r4
  (tr, st, readAmount r5)

/-- std::replace of the characters & and = by spaces in the decoded
request (zarembmj_homework8.cpp lines 212-213). -/
def sanitize (r : String) : String :=
  r.map (fun c => if c = '&' ∨ c = '=' then ' ' else c)

/-- The whitespace tokenization performed by reading words out of the
istringstream built over the sanitized request. -/
def tokenize (r : String) : List String :=
  (r.split (fun c => c = ' ')).filter (fun t => t ≠ "")

/-- The full request decoder of clientThread: sanitize, tokenize, then
run the extraction sequence. -/
def decodeRequest (r : String) : String × String × Nat :=
  decodeTokens (tokenize (sanitize r))

/-- Modelled from the spec: the decoded fields are the tokens at the
1-based positions 2, 4 and 6, with the empty string and quantity 0 as
defaults for missing tokens. -/
def specDecode (toks : List String) : String × String × Nat :=
  (toks.getD 1 "", toks.getD 3 "", parseAmount (toks.getD 5 ""))

/-- C7: the extraction sequence of clientThread equals the positional
description of the spec on every token list, with fields defaulting to
"" and 0 when tokens are missing; a token without digits (and the
missing token) parses to quantity 0 without any error; and dispatching
the defaulted empty transaction kind always produces a response,
namely "Stock not found" or "Invalid request", with the store
unchanged. -/
theorem decode_positional_defaults (toks : List String) (s : Store)
    (n : String) :
    decodeTokens toks = specDecode toks ∧
    parseAmount "" = 0 ∧
    parseAmount "quantity" = 0 ∧
    processTrans s "" n 0 =
      some ((if findStock s n = none then "Stock not found"
             else "Invalid request"), s) := by
  refine ⟨?_, by decide, by decide, ?_⟩
  · rcases toks with _ | ⟨a, _ | ⟨b, _ | ⟨c, _ | ⟨d, _ | ⟨e, _ | ⟨f, ts⟩⟩⟩⟩⟩⟩
      <;> simp [decodeTokens, readTok, readAmount, specDecode, List.getD,
                show parseAmount "" = 0 by decide]
  · rcases hfind : findStock s n with _ | b
    · simp [processTrans, hfind]
    · simp [processTrans, hfind]

/-- Phase of a detached connection handler of the homework9 server:
processing (admitted, before the decrement sm::threadCount--),
released (after the decrement, before sendResponse), responded (after
sendResponse). -/
inductive HPhase where
  | processing
  | released
  | responded
deriving DecidableEq

/-- Whether a handler phase counts against the admission ceiling. -/
def isProcessing : HPhase → Bool
  | HPhase.processing => true
  | _ => false

@[simp] lemma isProcessing_processing :
    isProcessing HPhase.processing = true := rfl

@[simp] lemma isProcessing_released :
    isProcessing HPhase.released = false := rfl

@[simp] lemma isProcessing_responded :
    isProcessing HPhase.responded = false := rfl

/-- The shared concurrency state of runServer and its detached handlers
(zarembmj_homework9.cpp): accPassed records that the single acceptor
thread has observed threadCount < maxThreads in its condition wait but
has not yet executed the increment (the check and the increment are
distinct steps in the source); threadCount embeds the
std::atomic<int> sm::threadCount; handlers lists the phase of every
spawned handler. -/
structure ServerState where
  accPassed : Bool
  threadCount : Int
  handlers : List HPhase

/-- Interleaved small-step semantics of the admission protocol of
zarembmj_homework9.cpp.  waitPass: the acceptor passes the wait
predicate threadCount < maxThreads (runServer lines 273-274).
spawnHandler: the acceptor executes the increment and detaches a new
handler (lines 276, 280-281).  finishTrans: a handler whose
processTrans call returned executes the decrement and the notify
(clientThread lines 232-234).  sendResp: a handler that has
decremented writes its response (line 238).  The acceptor steps carry
no index because runServer is a single sequential loop; handler steps
interleave arbitrarily. -/
inductive ServerStep (maxThreads : Int) : ServerState → ServerState → Prop
  where
  | waitPass (σ : ServerState) (hacc : σ.accPassed = false)
      (hlt : σ.threadCount < maxThreads) :
      ServerStep maxThreads σ ⟨true, σ.threadCount, σ.handlers⟩
  | spawnHandler (σ : ServerState) (hacc : σ.accPassed = true) :
      ServerStep maxThreads σ
        ⟨false, σ.threadCount + 1, HPhase.processing :: σ.handlers⟩
  | finishTrans (σ : ServerState) (i : Nat)
      (hi : σ.handlers[i]? = some HPhase.processing) :
      ServerStep maxThreads σ
        ⟨σ.accPassed, σ.threadCount - 1,
         σ.handlers.set i HPhase.released⟩
  | sendResp (σ : ServerState) (i : Nat)
      (hi : σ.handlers[i]? = some HPhase.released) :
      ServerStep maxThreads σ
        ⟨σ.accPassed, σ.threadCount, σ.handlers.set i HPhase.responded⟩

/-- States reachable from the initial server state: no handler spawned,
threadCount 0, acceptor before its wait. -/
inductive ServerReach (maxThreads : Int) : ServerState → Prop where
  | init : ServerReach maxThreads ⟨false, 0, []⟩
  | step {σ σ' : ServerState} : ServerReach maxThreads σ →
      ServerStep maxThreads σ σ' → ServerReach maxThreads σ'

/-- Replacing one element changes countP by the difference of the
indicator values of the old and new elements. -/
lemma countP_set_eq {α : Type} (p : α → Bool) :
    ∀ (l : List α) (i : Nat) (a b : α), l[i]? = some b →
      (l.set i a).countP p + (if p b then 1 else 0)
        = l.countP p + (if p a then 1 else 0)
  | [], i, a, b, h => by simp at h
  | x :: xs, 0, a, b, h => by
      simp at h
      subst h
      simp [List.countP_cons]
      omega
  | x :: xs, i + 1, a, b, h => by
      simp at h
      have ih := countP_set_eq p xs i a b h
      simp [List.countP_cons]
      omega

/-- Inductive invariant of the admission protocol: threadCount equals
the number of handlers in the processing phase, never exceeds the
ceiling, and is strictly below the ceiling whenever the acceptor has
passed its wait but not yet incremented. -/
lemma serverInv {N : Int} (hN : 0 < N) {σ : ServerState}
    (h : ServerReach N σ) :
    σ.threadCount = (σ.handlers.countP isProcessing : Int) ∧
    σ.threadCount ≤ N ∧
    (σ.accPassed = true → σ.threadCount < N) := by
  induction h with
  | init => exact ⟨by simp, le_of_lt hN, by simp⟩
  | step hreach hstep ih =>
      obtain ⟨ih1, ih2, ih3⟩ := ih
      cases hstep with
      | waitPass hacc hlt => exact ⟨ih1, ih2, fun _ => hlt⟩
      | spawnHandler hacc =>
          have hlt := ih3 hacc
          refine ⟨?_, ?_, ?_⟩
          · dsimp only
            simp [List.countP_cons]
            omega
          · dsimp only
            omega
          · dsimp only
            simp
      | finishTrans i hi =>
          have hc := countP_set_eq isProcessing _ i
            HPhase.released HPhase.processing hi
          simp at hc
          refine ⟨?_, ?_, fun hp => ?_⟩
          · dsimp only
            omega
          · dsimp only
            omega
          · dsimp only at hp ⊢
            have := ih3 hp
            omega
      | sendResp i hi =>
          have hc := countP_set_eq isProcessing _ i
            HPhase.responded HPhase.released hi
          simp at hc
          refine ⟨?_, ?_, fun hp => ?_⟩
          · dsimp only
            omega
          · dsimp only
            omega
          · dsimp only at hp ⊢
            have := ih3 hp
            omega

/-- C8: in every reachable state of the homework9 server with
admission ceiling maxThreads > 0, the number of handlers concurrently
in their processing phase is at most the ceiling; and when that number
equals the ceiling, no enabled step spawns a new handler (the handler
list cannot grow), so one more submission is admitted only after some
handler performs its decrement. -/
theorem admission_ceiling (N : Int) (hN : 0 < N) (σ : ServerState)
    (h : ServerReach N σ) :
    ((σ.handlers.countP isProcessing : Nat) : Int) ≤ N ∧
    (((σ.handlers.countP isProcessing : Nat) : Int) = N →
      ∀ σ', ServerStep N σ σ' →
        σ'.handlers.length = σ.handlers.length) := by
  obtain ⟨h1, h2, h3⟩ := serverInv hN h
  refine ⟨by omega, fun hfull σ' hstep => ?_⟩
  cases hstep with
  | waitPass hacc hlt => rfl
  | spawnHandler hacc =>
      exact absurd (h3 hacc) (by omega)
  | finishTrans i hi =>
      simp [List.length_set]
  | sendResp i hi =>
      simp [List.length_set]

/-- Witness for C8 at ceiling 1: the state reached by one wait-pass and
one spawn holds one processing handler, which meets the bound, and at
the full ceiling no step grows the handler list. -/
theorem admission_ceiling_witness :
    ((List.countP isProcessing [HPhase.processing] : Nat) : Int) ≤ 1 ∧
    (((List.countP isProcessing [HPhase.processing] : Nat) : Int) = 1 →
      ∀ σ', ServerStep 1 ⟨false, 1, [HPhase.processing]⟩ σ' →
        σ'.handlers.length =
          (ServerState.mk false 1 [HPhase.processing]).handlers.length) := by
  have h0 : ServerReach 1 ⟨true, 0, []⟩ :=
    ServerReach.step ServerReach.init
      (ServerStep.waitPass ⟨false, 0, []⟩ rfl (by decide))
  have h1 : ServerReach 1 ⟨false, 1, [HPhase.processing]⟩ := by
    have hs : ServerStep 1 ⟨true, 0, []⟩
        ⟨false, (0 : Int) + 1, [HPhase.processing]⟩ :=
      ServerStep.spawnHandler ⟨true, 0, []⟩ rfl
    have h1' := ServerReach.step h0 hs
    simpa using h1'
  exact admission_ceiling 1 (by decide) ⟨false, 1, [HPhase.processing]⟩ h1

/-- The externally relevant events of one run of clientThread in
zarembmj_homework9.cpp. -/
inductive CTEvent where
  | requestRead
  | transProcessed
  | countDecremented
  | waiterNotified
  | responseSent
deriving DecidableEq

/-- The order in which clientThread (zarembmj_homework9.cpp lines
209-239) performs its events on every handled connection: read and
decode the request (lines 212-226), call processTrans (line 228),
decrement sm::threadCount (line 232), notify the acceptor (line 234),
and only then send the response (line 238).  The same order appears in
raodm_homework8.cpp lines 209-239. -/
def clientThreadEvents : List CTEvent :=
  [CTEvent.requestRead, CTEvent.transProcessed, CTEvent.countDecremented,
   CTEvent.waiterNotified, CTEvent.responseSent]

/-- C9 counterexample: in clientThread the decrement of the admission
count precedes the writing of the response, refuting the claim that
the decrement never precedes it. -/
theorem decrement_precedes_response :
    clientThreadEvents.indexOf CTEvent.countDecremented <
      clientThreadEvents.indexOf CTEvent.responseSent := by decide

/-- C9 (amended): on every handled connection the admission count is
decremented after the transaction has been processed but before the
response is written to the client. -/
theorem decrement_after_processing_before_response :
    clientThreadEvents.indexOf CTEvent.transProcessed <
      clientThreadEvents.indexOf CTEvent.countDecremented ∧
    clientThreadEvents.indexOf CTEvent.countDecremented <
      clientThreadEvents.indexOf CTEvent.responseSent := by decide

/-- Program counter of one thread executing createStock
(zarembmj_homework8.cpp lines 55-66): atFind before the
stockMap.find existence check (line 57); afterFind with the result of
that check; done with the returned message. -/
inductive CreatePC where
  | atFind
  | afterFind (found : Bool)
  | done (msg : String)
deriving DecidableEq

/-- A thread running createStock with its balance argument. -/
structure CreateThread where
  pc : CreatePC
  arg : Nat
deriving DecidableEq

/-- One interleaving step of a thread inside createStock, acting on the
shared store: first the existence check (line 57), then, when the
check saw the name absent, the insertion (lines 59-60) and the created
message (lines 61-62), or, when it saw the name present, the
already-exists message (line 65).  The source guards none of this with
a lock, so steps of two threads may interleave between the check and
the insertion; the insertion is modelled as a single atomic step,
which only restricts the set of interleavings further. -/
def createStep (name : String) (s : Store) (t : CreateThread) :
    Store × CreateThread :=
  match t.pc with
  | CreatePC.atFind =>
      (s, ⟨CreatePC.afterFind (findStock s name).isSome, t.arg⟩)
  | CreatePC.afterFind false =>
      (setStock s name t.arg,
       ⟨CreatePC.done ("Stock " ++ name ++ " created with balance = "
          ++ toString t.arg), t.arg⟩)
  | CreatePC.afterFind true =>
      (s, ⟨CreatePC.done ("Stock " ++ name ++ " already exists"), t.arg⟩)
  | CreatePC.done _ => (s, t)

/-- Run two threads, both executing createStock on the same name, under
a schedule: true steps the first thread, false the second. -/
def runSched (name : String) :
    List Bool → Store × CreateThread × CreateThread →
      Store × CreateThread × CreateThread
  | [], st => st
  | b :: rest, (s, t1, t2) =>
      if b then
        let (s', t1') := createStep name s t1
        runSched name rest (s', t1', t2)
      else
        let (s', t2') := createStep name s t2
        runSched name rest (s', t1, t2')

/-- C10: with no lock around the check-then-insert of createStock, the
interleaving in which both threads pass the existence check on the
empty store before either inserts makes both create calls on the
never-before-seen name Y report a created message, violating the
exactly-one-created requirement; the serialized schedule, by contrast,
yields one created and one already-exists response. -/
theorem concurrent_create_double_create :
    ((runSched "Y" [true, false, true, false]
        ([], ⟨CreatePC.atFind, 100⟩, ⟨CreatePC.atFind, 50⟩)).2.1.pc =
      CreatePC.done "Stock Y created with balance = 100" ∧
     (runSched "Y" [true, false, true, false]
        ([], ⟨CreatePC.atFind, 100⟩, ⟨CreatePC.atFind, 50⟩)).2.2.pc =
      CreatePC.done "Stock Y created with balance = 50") ∧
    ((runSched "Y" [true, true, false, false]
        ([], ⟨CreatePC.atFind, 100⟩, ⟨CreatePC.atFind, 50⟩)).2.1.pc =
      CreatePC.done "Stock Y created with balance = 100" ∧
     (runSched "Y" [true, true, false, false]
        ([], ⟨CreatePC.atFind, 100⟩, ⟨CreatePC.atFind, 50⟩)).2.2.pc =
      CreatePC.done "Stock Y already exists") := by
  refine ⟨⟨?_, ?_⟩, ?_, ?_⟩ <;> decide
